import Mathlib

/-!
Verification development for the natural-to-sql-query repository
(`src/main.py`).  The program's pure logic is embedded shallowly:

* the PostgreSQL catalog visible to the introspection query of
  `get_database_schema` (src/main.py:29-78) is a `Catalog` of
  `information_schema` rows, and the SQL query itself (joins, grouping,
  `STRING_AGG`, `ORDER BY table_name, column_name`) is the function
  `introspectionRows`;
* the `re.sub` fence-stripping post-processing step of
  `generate_sql_query` (src/main.py:116) is `stripFencesAux` /
  `generate_sql_query`;
* the session loop of `main` (src/main.py:153-190) is the step function
  `stepTurn` plus the driver `runSession` / `runMain`.  External effects
  (the user's line of input, the language-model completions, the database
  execution outcome, the text-to-speech outcome) are supplied per turn by
  a `TurnOracle`; the observable behaviour of a run is a `List Event`
  trace plus a `SessionEnd`.  Python code with no exception handler is
  modelled by the `TurnOutcome.crash` / `SessionEnd.crashed` outcomes: an
  exception raised there propagates out of `main`.
-/

namespace NatToSql

/-! ### Schema introspection (src/main.py:29-78)

The catalog tables referenced by the introspection query. -/

/-- A row of `information_schema.columns`. -/
structure ColumnInfo where
  table_schema : String
  table_name : String
  column_name : String
  data_type : String
deriving DecidableEq, Repr

/-- A row of `information_schema.key_column_usage`. -/
structure KeyColumnUsage where
  constraint_name : String
  table_schema : String
  table_name : String
  column_name : String
deriving DecidableEq, Repr

/-- A row of `information_schema.table_constraints`. -/
structure TableConstraint where
  constraint_name : String
  table_schema : String
  constraint_type : String
deriving DecidableEq, Repr

/-- A row of `information_schema.constraint_column_usage`. -/
structure ConstraintColumnUsage where
  constraint_name : String
  table_schema : String
  table_name : String
  column_name : String
deriving DecidableEq, Repr

/-- The catalog state the introspection query reads. -/
structure Catalog where
  columns : List ColumnInfo
  key_column_usage : List KeyColumnUsage
  table_constraints : List TableConstraint
  constraint_column_usage : List ConstraintColumnUsage
deriving Repr

/-- One row of the result set of the introspection query: the
`SchemaDescriptor` entry `(table_name, column_name, data_type, key_details)`.
`key_details` is `none` when the SQL `STRING_AGG` aggregates only `NULL`s. -/
structure SchemaRow where
  table_name : String
  column_name : String
  data_type : String
  key_details : Option String
deriving DecidableEq, Repr

/-- `LEFT JOIN`: an empty match list contributes a single `NULL` row. -/
def leftJoin {α : Type} (ms : List α) : List (Option α) :=
  if ms.isEmpty then [none] else ms.map some

/-- The per-column `CONCAT` pieces aggregated by `STRING_AGG` in the
introspection query: `key_column_usage` rows matching the column, left-joined
with `table_constraints` and `constraint_column_usage` (`CONCAT` renders SQL
`NULL` fields as empty strings). -/
def keyDetailParts (cat : Catalog) (t c : String) : List String :=
  (cat.key_column_usage.filter fun k => k.table_name == t && k.column_name == c).flatMap fun k =>
    (leftJoin (cat.table_constraints.filter fun tc =>
        tc.constraint_name == k.constraint_name && tc.table_schema == k.table_schema)).flatMap fun tc? =>
      (leftJoin (match tc? with
        | some tc => cat.constraint_column_usage.filter fun u =>
            u.constraint_name == tc.constraint_name && u.table_schema == tc.table_schema
        | none => [])).map fun u? =>
        k.constraint_name ++ " (" ++
          (match tc? with | some tc => tc.constraint_type | none => "") ++ " -> " ++
          (match u? with | some u => u.table_name | none => "") ++ "." ++
          (match u? with | some u => u.column_name | none => "") ++ ")"

/-- The `key_details` column: `STRING_AGG(..., ', ')`, `NULL` when the column
participates in no key (the `CASE WHEN kcu.table_name IS NOT NULL` guard). -/
def key_details (cat : Catalog) (t c : String) : Option String :=
  match keyDetailParts cat t c with
  | [] => none
  | ps => some (String.intercalate ", " ps)

/-- The `SELECT` list of the introspection query applied to one grouped
`information_schema.columns` row. -/
def schemaRowOf (cat : Catalog) (ci : ColumnInfo) : SchemaRow :=
  ⟨ci.table_name, ci.column_name, ci.data_type, key_details cat ci.table_name ci.column_name⟩

/-- The `ORDER BY cols.table_name, cols.column_name` order of the
introspection query: lexicographic on table name, then column name. -/
def rowLe (a b : SchemaRow) : Prop :=
  a.table_name < b.table_name ∨ (a.table_name = b.table_name ∧ a.column_name ≤ b.column_name)

instance : DecidableRel rowLe := fun a b => by
  unfold rowLe; infer_instance

instance : IsTotal SchemaRow rowLe :=
  ⟨fun a b => by
    unfold rowLe
    rcases lt_trichotomy a.table_name b.table_name with h | h | h
    · exact Or.inl (Or.inl h)
    · rcases le_total a.column_name b.column_name with hc | hc
      · exact Or.inl (Or.inr ⟨h, hc⟩)
      · exact Or.inr (Or.inr ⟨h.symm, hc⟩)
    · exact Or.inr (Or.inl h)⟩

instance : IsTrans SchemaRow rowLe :=
  ⟨fun a b c hab hbc => by
    unfold rowLe at hab hbc ⊢
    rcases hab with h1 | ⟨e1, l1⟩ <;> rcases hbc with h2 | ⟨e2, l2⟩
    · exact Or.inl (h1.trans h2)
    · exact Or.inl (lt_of_lt_of_le h1 (le_of_eq e2))
    · exact Or.inl (lt_of_le_of_lt (le_of_eq e1) h2)
    · exact Or.inr ⟨e1.trans e2, l1.trans l2⟩⟩

/-- The full introspection query (src/main.py:39-75): filter
`table_schema = 'public'`, `GROUP BY` the column triple (grouping of equal
rows = deduplication), compute the `SELECT` list, and apply
`ORDER BY table_name, column_name`. -/
def introspectionRows (cat : Catalog) : List SchemaRow :=
  List.insertionSort rowLe
    (((cat.columns.filter fun ci => ci.table_schema == "public").dedup).map (schemaRowOf cat))

/-! ### Query synthesis post-processing (src/main.py:86-116) -/

/-- The backtick character, `Unicode 0x60`. -/
def tick : Char := "`".front

/-- The second alternative of the `re.sub` pattern: three backticks. -/
def fence : List Char := "```".toList

/-- The first alternative of the `re.sub` pattern: three backticks, `sql`,
and a newline. -/
def sqlFence : List Char := "```sql\n".toList

/-- `re.sub(r'```sql\n|```', '', text)` (src/main.py:116): scan left to
right; at each position try the alternative `` ```sql\n `` first, then
`` ``` ``; on a match drop it and resume after it, otherwise keep the
character.  The scan consumes at least one character per step, so fuel equal
to the input length (as supplied by `stripFences`) always suffices; the
fuel-exhausted branch is unreachable then. -/
def stripFencesFuel : Nat → List Char → List Char
  | _, [] => []
  | 0, c :: cs => c :: cs
  | n + 1, c :: cs =>
    if (c :: cs).take 7 = sqlFence then stripFencesFuel n (cs.drop 6)
    else if (c :: cs).take 3 = fence then stripFencesFuel n (cs.drop 2)
    else c :: stripFencesFuel n cs

/-- The fence-stripping substitution on a character list. -/
def stripFences (l : List Char) : List Char :=
  stripFencesFuel l.length l

/-- The pure core of `generate_sql_query` (src/main.py:86-116): the prompt
construction and the language-model call are external (the completion text
is this function's argument); the returned `CandidateQuery` is the
completion with the code-fence pattern substituted away. -/
def generate_sql_query (response_text : String) : String :=
  ⟨stripFences response_text.toList⟩

/-! ### The session loop of `main` (src/main.py:153-190) -/

/-- A value of a `QueryResult` cell (text, numeric, temporal, or `NULL`). -/
inductive SqlValue : Type
  | vtext (s : String)
  | vint (n : Int)
  | vtime (iso : String)
  | vnull
deriving DecidableEq, Repr

/-- Python's `str.lower()` as used by `main` on the input line. -/
def pyLower (s : String) : String :=
  ⟨s.toList.map Char.toLower⟩

/-- Decidable equality for `Except`, needed to evaluate traces on concrete
turn oracles. -/
instance {ε α : Type} [DecidableEq ε] [DecidableEq α] : DecidableEq (Except ε α) := fun a b =>
  match a, b with
  | Except.ok x, Except.ok y =>
      if h : x = y then Decidable.isTrue (by rw [h]) else
        Decidable.isFalse (by intro hc; cases hc; exact h rfl)
  | Except.error x, Except.error y =>
      if h : x = y then Decidable.isTrue (by rw [h]) else
        Decidable.isFalse (by intro hc; cases hc; exact h rfl)
  | Except.ok _, Except.error _ => Decidable.isFalse (by intro hc; cases hc)
  | Except.error _, Except.ok _ => Decidable.isFalse (by intro hc; cases hc)

/-- The external effects of one loop iteration: the line typed by the user,
the text completion the language model returns for `generate_sql_query`, the
database's response to `cur.execute`/`fetchall`, the completion (or raised
exception) of the `analyze_sql_output` model call, and the outcome of
`speak_text`.  An `Except.error` models the corresponding Python call
raising. -/
structure TurnOracle where
  userInput : String
  modelResponse : String
  execResult : Except String (List (List SqlValue))
  interpResult : Except String String
  speakResult : Except String Unit
deriving DecidableEq, Repr

/-- Observable events of a run: the input prompt, `print` calls, the
language-model calls, the statement handed to `cur.execute`, the
`speak_text` call, the introspection query, and `conn.close()`. -/
inductive Event : Type
  | prompt
  | printed (s : String)
  | synthCalled (question : String)
  | executed (query : String)
  | interpCalled (question : String)
  | speakAttempted (answer : String)
  | introspected
  | connClosed
deriving DecidableEq, Repr

/-- How one loop iteration ends: fall through to the next `input` call,
`break` out of the loop, or an uncaught exception propagating out of
`main`. -/
inductive TurnOutcome : Type
  | nextTurn
  | exitLoop
  | crash (msg : String)
deriving DecidableEq, Repr

/-- How a whole run ends: `break` followed by `conn.close()`, an uncaught
exception, the setup `return` when no connection was obtained, or the
modelled input horizon running out mid-session. -/
inductive SessionEnd : Type
  | exited
  | crashed (msg : String)
  | setupAbort
  | pending
deriving DecidableEq, Repr

/-- One iteration of the `while True` loop of `main` (src/main.py:165-187):
read input; `break` on a case-insensitive `"exit"`; call
`generate_sql_query` and test the `"Failed"` sentinel; execute the statement
inside `try/except` (`continue` printing the error on failure); then call
`analyze_sql_output` and `speak_text` — both outside any `try`, so a raise
there crashes the session — and finally print the answer. -/
def stepTurn (o : TurnOracle) : List Event × TurnOutcome :=
  if pyLower o.userInput = "exit" then ([Event.prompt], TurnOutcome.exitLoop)
  else if generate_sql_query o.modelResponse = "Failed" then
    ([Event.prompt, Event.synthCalled o.userInput,
      Event.printed "Not able to generate SQL query"], TurnOutcome.nextTurn)
  else
    match o.execResult with
    | Except.error e =>
        ([Event.prompt, Event.synthCalled o.userInput,
          Event.executed (generate_sql_query o.modelResponse),
          Event.printed ("Error executing query: " ++ e)], TurnOutcome.nextTurn)
    | Except.ok _ =>
        match o.interpResult with
        | Except.error m =>
            ([Event.prompt, Event.synthCalled o.userInput,
              Event.executed (generate_sql_query o.modelResponse),
              Event.interpCalled o.userInput], TurnOutcome.crash m)
        | Except.ok answer =>
            match o.speakResult with
            | Except.error m =>
                ([Event.prompt, Event.synthCalled o.userInput,
                  Event.executed (generate_sql_query o.modelResponse),
                  Event.interpCalled o.userInput,
                  Event.speakAttempted answer], TurnOutcome.crash m)
            | Except.ok _ =>
                ([Event.prompt, Event.synthCalled o.userInput,
                  Event.executed (generate_sql_query o.modelResponse),
                  Event.interpCalled o.userInput,
                  Event.speakAttempted answer,
                  Event.printed ("Output: " ++ answer)], TurnOutcome.nextTurn)

/-- The `while True` loop over a finite horizon of turn oracles, plus the
epilogue `conn.close()` / final print after `break`
(src/main.py:189-190).  An uncaught exception skips the epilogue. -/
def runSession : List TurnOracle → List Event × SessionEnd
  | [] => ([], SessionEnd.pending)
  | o :: os =>
    match stepTurn o with
    | (tr, TurnOutcome.exitLoop) =>
        (tr ++ [Event.connClosed, Event.printed "Database connection closed."], SessionEnd.exited)
    | (tr, TurnOutcome.crash m) => (tr, SessionEnd.crashed m)
    | (tr, TurnOutcome.nextTurn) =>
        (tr ++ (runSession os).1, (runSession os).2)

/-- `get_db_connection` (src/main.py:10-26): `psycopg2.connect` either
succeeds or raises `OperationalError`; the except branch prints the error
and returns `None` instead of re-raising. -/
def get_db_connection (attempt : Except String Unit) : Option Unit × List Event :=
  match attempt with
  | Except.ok _ => (some (), [Event.printed "Database connection successful."])
  | Except.error e => (none, [Event.printed ("Database connection failed: " ++ e)])

/-- `get_database_schema` (src/main.py:29-78): with no connection it prints
and returns `None`; otherwise it runs the introspection query against the
catalog, returning the rows, or — when the query raises `psycopg2.Error` —
printing the error and returning `None`. -/
def get_database_schema (conn : Option Unit) (run : Except String Catalog) :
    Option (List SchemaRow) × List Event :=
  match conn with
  | none => (none, [Event.printed "Cannot get schema: No database connection."])
  | some _ =>
    match run with
    | Except.ok cat => (some (introspectionRows cat), [Event.introspected])
    | Except.error e =>
        (none, [Event.introspected,
                Event.printed ("An error occurred while fetching the schema: " ++ e)])

/-- `main` (src/main.py:153-190): obtain the connection, `return` if it is
falsy, fetch the schema — with **no** check on the result — and enter the
loop.  The schema value itself flows only into the language-model prompt,
which the per-turn oracle abstracts. -/
def runMain (connAttempt : Except String Unit) (introAttempt : Except String Catalog)
    (turns : List TurnOracle) : List Event × SessionEnd :=
  match get_db_connection connAttempt with
  | (none, tr0) => (tr0, SessionEnd.setupAbort)
  | (some c, tr0) =>
    match get_database_schema (some c) introAttempt with
    | (_schema, tr1) =>
        (tr0 ++ tr1 ++ (runSession turns).1, (runSession turns).2)

/-- Whether an event is a `conn.close()`. -/
def isClose : Event → Bool
  | Event.prompt => false
  | Event.printed _ => false
  | Event.synthCalled _ => false
  | Event.executed _ => false
  | Event.interpCalled _ => false
  | Event.speakAttempted _ => false
  | Event.introspected => false
  | Event.connClosed => true

/-- Number of `conn.close()` events in a trace. -/
def countClose (tr : List Event) : Nat :=
  (tr.filter isClose).length

/-! ### Concrete turn oracles used by the closed theorems -/

/-- A turn whose model completion is a bare data-modifying statement after a
leading `SELECT`: the injected multi-statement payload of the spec's
end-to-end scenario 2. -/
def c1Oracle : TurnOracle :=
  ⟨"show me the customers table", "SELECT * FROM customers; DROP TABLE customers;",
   Except.ok [], Except.ok "done", Except.ok ()⟩

/-- A turn following a failed schema introspection. -/
def c3Oracle : TurnOracle :=
  ⟨"list the customers", "SELECT * FROM customers;",
   Except.ok [], Except.ok "No customers found.", Except.ok ()⟩

/-- A turn whose execution raises a column-not-found error. -/
def c5Oracle : TurnOracle :=
  ⟨"list customers", "SELECT nam FROM customers;",
   Except.error "column does not exist", Except.ok "unused", Except.ok ()⟩

/-- A turn whose input is an upper-case exit token. -/
def c6ExitOracle : TurnOracle :=
  ⟨"EXIT", "SELECT 1;", Except.ok [], Except.ok "one", Except.ok ()⟩

/-- A non-exit turn used to show the loop advances to synthesis. -/
def c6OtherOracle : TurnOracle :=
  ⟨"how many customers are there", "SELECT COUNT(*) FROM customers;",
   Except.ok [[SqlValue.vint 42]], Except.ok "There are 42 customers.", Except.ok ()⟩

/-- A turn whose text-to-speech call raises. -/
def c7Oracle : TurnOracle :=
  ⟨"how many customers?", "SELECT COUNT(*) FROM customers;",
   Except.ok [[SqlValue.vint 42]], Except.ok "There are 42 customers.",
   Except.error "audio device unavailable"⟩

/-- A turn whose interpretation model call raises. -/
def c8Oracle : TurnOracle :=
  ⟨"total revenue", "SELECT SUM(amount) FROM orders;",
   Except.ok [[SqlValue.vint 1000]], Except.error "model request failed", Except.ok ()⟩

/-- A turn on which the synthesizer returns its `"Failed"` sentinel. -/
def c9Oracle : TurnOracle :=
  ⟨"what is the average", "Failed", Except.ok [], Except.ok "unused", Except.ok ()⟩

/-- Number of leading backticks of a character list. -/
def leadTicks : List Char → Nat
  | [] => 0
  | c :: cs => if c = tick then leadTicks cs + 1 else 0

/-! ### Lemmas about the fence-stripping substitution -/

lemma leadTicks_cons (c : Char) (cs : List Char) :
    leadTicks (c :: cs) = if c = tick then leadTicks cs + 1 else 0 := rfl

lemma fence_replicate : fence = List.replicate 3 tick := by decide

lemma fence_cons : fence = tick :: tick :: tick :: [] := by decide

lemma take3_of_take7 {l : List Char} (h : l.take 7 = sqlFence) : l.take 3 = fence := by
  have h1 : l.take 3 = (l.take 7).take 3 := by
    rw [List.take_take]
    norm_num
  rw [h1, h]
  decide

lemma take_of_lead : ∀ (n : Nat) (l : List Char),
    n ≤ leadTicks l → l.take n = List.replicate n tick := by
  intro n
  induction n with
  | zero => intro l _; simp
  | succ m ih =>
    intro l h
    cases l with
    | nil => exact absurd h (by simp [leadTicks])
    | cons a cs =>
      rw [leadTicks_cons] at h
      by_cases ha : a = tick
      · rw [if_pos ha] at h
        have h2 := ih cs (Nat.le_of_succ_le_succ h)
        subst ha
        simp [List.replicate_succ, h2]
      · rw [if_neg ha] at h; omega

lemma lead_of_take : ∀ (n : Nat) (l : List Char),
    l.take n = List.replicate n tick → n ≤ leadTicks l := by
  intro n
  induction n with
  | zero => intro l _; exact Nat.zero_le _
  | succ m ih =>
    intro l h
    cases l with
    | nil => simp [List.replicate_succ] at h
    | cons a cs =>
      rw [List.take_succ_cons, List.replicate_succ] at h
      simp only [List.cons.injEq] at h
      rw [leadTicks_cons, if_pos h.1]
      have := ih cs h.2
      omega

lemma lead3 {l : List Char} (h : l.take 3 = fence) : 3 ≤ leadTicks l :=
  lead_of_take 3 l (by rw [h, fence_replicate])

lemma stripFencesFuel_nil (n : Nat) : stripFencesFuel n [] = [] := by
  cases n <;> rfl

/-- Invariant of the fence-stripping scan: given sufficient fuel the output
never contains three consecutive backticks, and it starts with at most two
backticks, no more than the input started with. -/
lemma stripFuel_good : ∀ (n : Nat) (l : List Char), l.length ≤ n →
    (¬ fence <:+: stripFencesFuel n l) ∧
      leadTicks (stripFencesFuel n l) ≤ leadTicks l ∧ leadTicks (stripFencesFuel n l) ≤ 2 := by
  have hnil : ∀ n : Nat, (¬ fence <:+: stripFencesFuel n []) ∧
      leadTicks (stripFencesFuel n []) ≤ leadTicks [] ∧ leadTicks (stripFencesFuel n []) ≤ 2 := by
    intro n
    rw [stripFencesFuel_nil]
    refine ⟨?_, le_rfl, by simp [leadTicks]⟩
    intro hinf
    obtain ⟨s, t, hst⟩ := hinf
    rw [fence_cons] at hst
    simp at hst
  intro n
  induction n with
  | zero =>
    intro l hl
    have : l = [] := List.length_eq_zero.mp (Nat.le_zero.mp hl)
    subst this
    exact hnil 0
  | succ n ih =>
    intro l hl
    cases l with
    | nil => exact hnil (n + 1)
    | cons c cs =>
      have hcs : cs.length ≤ n := by
        simp only [List.length_cons] at hl
        omega
      by_cases h7 : (c :: cs).take 7 = sqlFence
      · have e : stripFencesFuel (n + 1) (c :: cs) = stripFencesFuel n (cs.drop 6) := by
          simp only [stripFencesFuel]
          rw [if_pos h7]
        obtain ⟨r1, r2, r3⟩ := ih (cs.drop 6) (by simp only [List.length_drop]; omega)
        have h3 : 3 ≤ leadTicks (c :: cs) := lead3 (take3_of_take7 h7)
        rw [e]
        exact ⟨r1, by omega, r3⟩
      · by_cases h3 : (c :: cs).take 3 = fence
        · have e : stripFencesFuel (n + 1) (c :: cs) = stripFencesFuel n (cs.drop 2) := by
            simp only [stripFencesFuel]
            rw [if_neg h7, if_pos h3]
          obtain ⟨r1, r2, r3⟩ := ih (cs.drop 2) (by simp only [List.length_drop]; omega)
          have hge : 3 ≤ leadTicks (c :: cs) := lead3 h3
          rw [e]
          exact ⟨r1, by omega, r3⟩
        · have e : stripFencesFuel (n + 1) (c :: cs) = c :: stripFencesFuel n cs := by
            simp only [stripFencesFuel]
            rw [if_neg h7, if_neg h3]
          obtain ⟨r1, r2, r3⟩ := ih cs hcs
          rw [e]
          by_cases hc : c = tick
          · subst hc
            have hlcs : leadTicks cs ≤ 1 := by
              by_contra hgt
              push_neg at hgt
              have h2 : cs.take 2 = List.replicate 2 tick := take_of_lead 2 cs (by omega)
              apply h3
              rw [show (tick :: cs).take 3 = tick :: cs.take 2 from rfl, h2, fence_replicate]
              simp [List.replicate]
            refine ⟨?_, ?_, ?_⟩
            · intro hinf
              obtain ⟨s, t, hst⟩ := hinf
              cases s with
              | nil =>
                rw [fence_cons] at hst
                simp only [List.nil_append, List.cons_append] at hst
                have hr : stripFencesFuel n cs = tick :: tick :: t := by
                  injection hst with _ h2
                  exact h2.symm
                have : 2 ≤ leadTicks (stripFencesFuel n cs) := by
                  rw [hr]
                  simp [leadTicks_cons]
                omega
              | cons a s2 =>
                simp only [List.cons_append] at hst
                injection hst with _ h2
                exact r1 ⟨s2, t, h2⟩
            · rw [leadTicks_cons, leadTicks_cons, if_pos rfl, if_pos rfl]
              omega
            · rw [leadTicks_cons, if_pos rfl]
              omega
          · refine ⟨?_, ?_, ?_⟩
            · intro hinf
              obtain ⟨s, t, hst⟩ := hinf
              cases s with
              | nil =>
                rw [fence_cons] at hst
                simp only [List.nil_append, List.cons_append] at hst
                injection hst with h1 _
                exact hc h1.symm
              | cons a s2 =>
                simp only [List.cons_append] at hst
                injection hst with _ h2
                exact r1 ⟨s2, t, h2⟩
            · rw [leadTicks_cons, if_neg hc]
              exact Nat.zero_le _
            · rw [leadTicks_cons, if_neg hc]
              omega

/-! ### Lemmas about the session loop -/

lemma countClose_append (a b : List Event) :
    countClose (a ++ b) = countClose a + countClose b := by
  simp [countClose, List.filter_append]

lemma stepTurn_no_close (o : TurnOracle) : countClose (stepTurn o).1 = 0 := by
  obtain ⟨u, m, ex, ir, sp⟩ := o
  by_cases h1 : pyLower u = "exit" <;> by_cases h2 : generate_sql_query m = "Failed" <;>
    cases ex <;> cases ir <;> cases sp <;>
    simp [stepTurn, h1, h2, countClose, isClose]

lemma runSession_close_le_one : ∀ os : List TurnOracle, countClose (runSession os).1 ≤ 1 := by
  intro os
  induction os with
  | nil => simp [runSession, countClose]
  | cons o os ih =>
    have hz := stepTurn_no_close o
    rcases hpair : stepTurn o with ⟨tr, out⟩
    rw [hpair] at hz
    simp only at hz
    cases out with
    | exitLoop =>
      simp only [runSession, hpair]
      rw [countClose_append]
      have h1 : countClose [Event.connClosed,
          Event.printed "Database connection closed."] = 1 := rfl
      omega
    | crash m =>
      simp only [runSession, hpair]
      omega
    | nextTurn =>
      simp only [runSession, hpair]
      rw [countClose_append]
      omega

/-! ### Claim theorems -/

/-- C2: for every fixed catalog state, two calls to the schema-introspection
operation with no intervening schema change return identical `SchemaRow`
sequences, and the sequence is ordered by table name and then by column name
(the order relation `rowLe`). -/
theorem get_database_schema_deterministic_and_sorted (conn : Option Unit) (cat : Catalog) :
    get_database_schema conn (Except.ok cat) = get_database_schema conn (Except.ok cat) ∧
      introspectionRows cat = introspectionRows cat ∧
      List.Sorted rowLe (introspectionRows cat) :=
  ⟨rfl, rfl, List.sorted_insertionSort rowLe _⟩

/-- C4: for every text the language model returns, the CandidateQuery
produced by `generate_sql_query` contains no markdown code-fence marker: the
three-backtick sequence is not an infix of the returned string, the residual
fence markers having been removed by the pattern substitution. -/
theorem generate_sql_query_no_fence_markers (response_text : String) :
    ¬ fence <:+: (generate_sql_query response_text).toList := by
  have h := (stripFuel_good response_text.toList.length response_text.toList le_rfl).1
  exact h

lemma stepTurn_synth_of_not_exit (o : TurnOracle) (h : pyLower o.userInput ≠ "exit") :
    Event.synthCalled o.userInput ∈ (stepTurn o).1 := by
  obtain ⟨u, m, ex, ir, sp⟩ := o
  simp only at h
  by_cases h2 : generate_sql_query m = "Failed" <;> cases ex <;> cases ir <;> cases sp <;>
    simp [stepTurn, h, h2]

/-- C5: whenever execution of the synthesized statement raises a database
error, the session loop prints the error, does not invoke the Result
Interpreter that turn, ends the turn with `continue` rather than terminating
the session, and the loop resumes with the remaining turns. -/
theorem execution_error_is_per_turn (o : TurnOracle) (e : String)
    (hexit : pyLower o.userInput ≠ "exit")
    (hfail : generate_sql_query o.modelResponse ≠ "Failed")
    (hexec : o.execResult = Except.error e) :
    stepTurn o = ([Event.prompt, Event.synthCalled o.userInput,
        Event.executed (generate_sql_query o.modelResponse),
        Event.printed ("Error executing query: " ++ e)], TurnOutcome.nextTurn) ∧
      (∀ q, Event.interpCalled q ∉ (stepTurn o).1) ∧
      (∀ os, runSession (o :: os) =
        ((stepTurn o).1 ++ (runSession os).1, (runSession os).2)) := by
  have hstep : stepTurn o = ([Event.prompt, Event.synthCalled o.userInput,
      Event.executed (generate_sql_query o.modelResponse),
      Event.printed ("Error executing query: " ++ e)], TurnOutcome.nextTurn) := by
    simp [stepTurn, hexit, hfail, hexec]
  refine ⟨hstep, ?_, ?_⟩
  · intro q
    rw [hstep]
    simp
  · intro os
    simp [runSession, hstep]

/-- Witness for C5: a concrete turn whose execution raises. -/
theorem execution_error_is_per_turn_witness :
    stepTurn c5Oracle = ([Event.prompt, Event.synthCalled "list customers",
        Event.executed (generate_sql_query "SELECT nam FROM customers;"),
        Event.printed ("Error executing query: " ++ "column does not exist")],
      TurnOutcome.nextTurn) ∧
      Event.interpCalled "list customers" ∉ (stepTurn c5Oracle).1 := by
  have h := execution_error_is_per_turn c5Oracle "column does not exist"
    (by decide) (by decide) rfl
  exact ⟨h.1, h.2.1 "list customers"⟩

/-- C9: when the synthesizer returns the sentinel `"Failed"`, the loop
reports the failure and continues to the next input with no further pipeline
stage entered that turn: nothing is executed, no interpretation and no
rendering happens. -/
theorem synthesis_sentinel_recovers (o : TurnOracle)
    (hexit : pyLower o.userInput ≠ "exit")
    (hfail : generate_sql_query o.modelResponse = "Failed") :
    stepTurn o = ([Event.prompt, Event.synthCalled o.userInput,
        Event.printed "Not able to generate SQL query"], TurnOutcome.nextTurn) ∧
      (∀ q, Event.executed q ∉ (stepTurn o).1) ∧
      (∀ q, Event.interpCalled q ∉ (stepTurn o).1) ∧
      (∀ a, Event.speakAttempted a ∉ (stepTurn o).1) ∧
      (∀ os, runSession (o :: os) =
        ((stepTurn o).1 ++ (runSession os).1, (runSession os).2)) := by
  have hstep : stepTurn o = ([Event.prompt, Event.synthCalled o.userInput,
      Event.printed "Not able to generate SQL query"], TurnOutcome.nextTurn) := by
    simp [stepTurn, hexit, hfail]
  refine ⟨hstep, ?_, ?_, ?_, ?_⟩
  · intro q; rw [hstep]; simp
  · intro q; rw [hstep]; simp
  · intro a; rw [hstep]; simp
  · intro os
    simp [runSession, hstep]

/-- Witness for C9: a concrete turn on which the model answer strips to the
sentinel. -/
theorem synthesis_sentinel_recovers_witness :
    stepTurn c9Oracle = ([Event.prompt, Event.synthCalled "what is the average",
        Event.printed "Not able to generate SQL query"], TurnOutcome.nextTurn) ∧
      Event.executed "Failed" ∉ (stepTurn c9Oracle).1 := by
  have h := synthesis_sentinel_recovers c9Oracle (by decide) (by decide)
  exact ⟨h.1, h.2.1 "Failed"⟩

/-- C6: an input line case-insensitively equal to `"exit"` makes the loop
break directly to the closed state: the run ends, the connection is released
exactly once, and nothing beyond the closing epilogue happens — no further
prompt, no synthesis, the remaining turns never run.  Any other input
advances the turn to synthesis.  Moreover no run ever closes the connection
more than once. -/
theorem exit_token_closes_session (o : TurnOracle) (rest : List TurnOracle) :
    (pyLower o.userInput = "exit" →
      runSession (o :: rest) = ([Event.prompt, Event.connClosed,
        Event.printed "Database connection closed."], SessionEnd.exited) ∧
      countClose (runSession (o :: rest)).1 = 1) ∧
    (pyLower o.userInput ≠ "exit" → Event.synthCalled o.userInput ∈ (stepTurn o).1) ∧
    countClose (runSession (o :: rest)).1 ≤ 1 := by
  refine ⟨?_, fun h => stepTurn_synth_of_not_exit o h, runSession_close_le_one _⟩
  intro h
  have hstep : stepTurn o = ([Event.prompt], TurnOutcome.exitLoop) := by
    simp [stepTurn, h]
  have htr : runSession (o :: rest) = ([Event.prompt, Event.connClosed,
      Event.printed "Database connection closed."], SessionEnd.exited) := by
    simp [runSession, hstep]
  refine ⟨htr, ?_⟩
  rw [htr]
  rfl

/-- Witness for C6: a literal upper-case `"EXIT"` closes the session, and a
non-exit question advances to synthesis. -/
theorem exit_token_closes_session_witness :
    runSession [c6ExitOracle] = ([Event.prompt, Event.connClosed,
      Event.printed "Database connection closed."], SessionEnd.exited) ∧
    Event.synthCalled "how many customers are there" ∈ (stepTurn c6OtherOracle).1 := by
  have h1 := ((exit_token_closes_session c6ExitOracle []).1 (by decide)).1
  have h2 := (exit_token_closes_session c6OtherOracle []).2.1 (by decide)
  exact ⟨h1, h2⟩

/-- C10: when establishing the connection fails, `get_db_connection` catches
the error and returns `None` instead of raising, and `main` then returns
before prompting for any input, before the schema-introspection query, and
before any language-model call. -/
theorem connection_failure_aborts_before_loop (e : String)
    (introAttempt : Except String Catalog) (turns : List TurnOracle) :
    get_db_connection (Except.error e) =
      (none, [Event.printed ("Database connection failed: " ++ e)]) ∧
    runMain (Except.error e) introAttempt turns =
      ([Event.printed ("Database connection failed: " ++ e)], SessionEnd.setupAbort) ∧
    Event.prompt ∉ (runMain (Except.error e) introAttempt turns).1 ∧
    Event.introspected ∉ (runMain (Except.error e) introAttempt turns).1 ∧
    (∀ q, Event.synthCalled q ∉ (runMain (Except.error e) introAttempt turns).1) ∧
    (∀ q, Event.interpCalled q ∉ (runMain (Except.error e) introAttempt turns).1) := by
  have h2 : runMain (Except.error e) introAttempt turns =
      ([Event.printed ("Database connection failed: " ++ e)], SessionEnd.setupAbort) := rfl
  refine ⟨rfl, h2, ?_, ?_, ?_, ?_⟩
  · rw [h2]; simp
  · rw [h2]; simp
  · intro q; rw [h2]; simp
  · intro q; rw [h2]; simp

/-- C1: in `main` (src/main.py:170-182) no authorize step exists between
`generate_sql_query` and `cur.execute`; the only check is against the
`"Failed"` sentinel.  At the concrete turn `c1Oracle` the model completion —
an injected payload containing the token `DROP` after a leading `SELECT` —
passes through the synthesizer unchanged and is handed to `cur.execute`,
reaching the database instead of being rejected. -/
theorem drop_statement_reaches_execute :
    ("DROP".toList <:+: "SELECT * FROM customers; DROP TABLE customers;".toList) ∧
    generate_sql_query "SELECT * FROM customers; DROP TABLE customers;" =
      "SELECT * FROM customers; DROP TABLE customers;" ∧
    Event.executed "SELECT * FROM customers; DROP TABLE customers;" ∈ (stepTurn c1Oracle).1 ∧
    (stepTurn c1Oracle).2 = TurnOutcome.nextTurn := by
  decide

/-- C3: contrary to the claim, a failing introspection query is not
session-fatal in `main` (src/main.py:163-166): the error is printed,
`get_database_schema` returns `None`, and the session loop is entered
anyway — the next prompt is issued, synthesis is attempted with no schema,
and the synthesized statement is executed.  Evaluated at a concrete run. -/
theorem schema_fetch_error_still_enters_loop :
    Event.printed ("An error occurred while fetching the schema: " ++ "permission denied") ∈
      (runMain (Except.ok ()) (Except.error "permission denied") [c3Oracle]).1 ∧
    Event.prompt ∈ (runMain (Except.ok ()) (Except.error "permission denied") [c3Oracle]).1 ∧
    Event.synthCalled "list the customers" ∈
      (runMain (Except.ok ()) (Except.error "permission denied") [c3Oracle]).1 ∧
    Event.executed "SELECT * FROM customers;" ∈
      (runMain (Except.ok ()) (Except.error "permission denied") [c3Oracle]).1 := by
  decide

/-- C7: contrary to the claim, a failure in `speak_text` (src/main.py:185)
is fatal: there is no handler, the exception propagates out of `main`, the
session ends crashed without closing the connection, and the textual answer
— printed only on line 187, after `speak_text` returns — is never
printed. -/
theorem speak_failure_crashes_session :
    stepTurn c7Oracle = ([Event.prompt, Event.synthCalled "how many customers?",
        Event.executed "SELECT COUNT(*) FROM customers;",
        Event.interpCalled "how many customers?",
        Event.speakAttempted "There are 42 customers."],
      TurnOutcome.crash "audio device unavailable") ∧
    Event.printed ("Output: " ++ "There are 42 customers.") ∉ (stepTurn c7Oracle).1 ∧
    runSession [c7Oracle] =
      ((stepTurn c7Oracle).1, SessionEnd.crashed "audio device unavailable") ∧
    Event.connClosed ∉ (runSession [c7Oracle]).1 := by
  decide

/-- C8: contrary to the claim, a failure of the Result Interpreter
(src/main.py:184, `analyze_sql_output`) is fatal: no handler exists, the
exception propagates out of `main`, the session terminates, and no error is
printed that turn — the turn's trace contains no printed event at all. -/
theorem interpretation_failure_crashes_session :
    stepTurn c8Oracle = ([Event.prompt, Event.synthCalled "total revenue",
        Event.executed "SELECT SUM(amount) FROM orders;",
        Event.interpCalled "total revenue"],
      TurnOutcome.crash "model request failed") ∧
    (runSession [c8Oracle]).2 = SessionEnd.crashed "model request failed" ∧
    Event.printed "model request failed" ∉ (stepTurn c8Oracle).1 := by
  decide

end NatToSql
